import Mathlib

/-!
# Verification of the Foot4Ever TeamKeshi draft engine

Shallow embedding of `src/teamkeshi.py` (class `TeamKeshi`) and the parts of
`src/main.py` (class `FootUser`) that the draft engine reads.  Python floats
are modelled as rationals; Python runtime exceptions are modelled by an
explicit error type, and fallible operations return `Except PyErr _`.
-/

namespace Foot4Ever

/-- A `FootUser` from `main.py`, restricted to the fields the draft engine
(`teamkeshi.py`) reads: `id`, `user_name`, `first_name`, `order_id` and
`foot_rates`.  `foot_rates` is `None`able in Python (`get_rates` can fall
through and return `None`), hence an `Option`. -/
structure Player where
  id : Int
  user_name : String
  first_name : String
  order_id : Int
  foot_rates : Option (List ℚ)
deriving DecidableEq, Repr

/-- Python runtime exceptions that the embedded code can raise. -/
inductive PyErr where
  /-- `IndexError`: out-of-range list subscript, e.g. `list(d.keys())[1]`. -/
  | indexError
  /-- `TypeError`: e.g. `sum(None)` when `foot_rates` is `None`. -/
  | typeError
  /-- `ZeroDivisionError`: division by a zero denominator. -/
  | zeroDivisionError
  /-- `KeyError`: dict subscript with a missing key. -/
  | keyError
deriving DecidableEq, Repr

/-- State of a `TeamKeshi` object.  The Python `OrderedDict` `self.teams` is
modelled as an insertion-ordered association list with unique keys (the code
only ever inserts a key after checking it is absent). -/
structure TeamKeshi where
  players : List Player
  teams : List (Player × List Player)
  who_validated : List Player
deriving DecidableEq, Repr

namespace TeamKeshi

/-- `TeamKeshi.__init__`: keep players with `order_id >= 0`, sort ascending by
`order_id` (Python `sorted` is a stable merge sort), keep the first 10. -/
def init (all_players : List Player) : TeamKeshi :=
  { players :=
      ((all_players.filter (fun p => 0 ≤ p.order_id)).mergeSort
        (fun a b => a.order_id ≤ b.order_id)).take 10
    teams := []
    who_validated := [] }

/-- `TeamKeshi.add_captain`: insert `captain_player` with a singleton team
`[captain_player]` unless it is already a key of `teams`. -/
def add_captain (t : TeamKeshi) (captain_player : Player) : TeamKeshi :=
  if t.teams.any (fun kv => kv.1 = captain_player) then t
  else { t with teams := t.teams ++ [(captain_player, [captain_player])] }

/-- `TeamKeshi.add_player`: append `player` to the team of `captain_player`.
The Python dict subscript raises `KeyError` when the captain is unknown. -/
def add_player (t : TeamKeshi) (captain_player player : Player) :
    Except PyErr TeamKeshi :=
  if t.teams.any (fun kv => kv.1 = captain_player) then
    .ok { t with teams :=
      t.teams.map fun kv =>
        if kv.1 = captain_player then (kv.1, kv.2 ++ [player]) else kv }
  else .error .keyError

/-- `TeamKeshi.is_finish`: `False` when there are no teams, otherwise `False`
as soon as some team has fewer than 5 members, else `True`. -/
def is_finish (t : TeamKeshi) : Bool :=
  if t.teams.length = 0 then false
  else t.teams.all (fun kv => 5 ≤ kv.2.length)

/-- `TeamKeshi.is_both_validated`: `len(self.who_validated) == 2`. -/
def is_both_validated (t : TeamKeshi) : Bool :=
  t.who_validated.length = 2

/-- `TeamKeshi.set_validation`: unconditionally append the captain to the
`who_validated` list. -/
def set_validation (t : TeamKeshi) (captain : Player) : TeamKeshi :=
  { t with who_validated := t.who_validated ++ [captain] }

/-- The expression `sum(captain.foot_rates)/len(captain.foot_rates)` from
`whose_turn`: `TypeError` when `foot_rates` is `None`, `ZeroDivisionError`
when it is empty, otherwise the mean of its entries. -/
def avgRate (captain : Player) : Except PyErr ℚ :=
  match captain.foot_rates with
  | none => .error .typeError
  | some rs =>
    if rs.length = 0 then .error .zeroDivisionError
    else .ok (rs.sum / rs.length)

/-- `TeamKeshi.whose_turn`.  `list(self.teams.keys())[0]` and `[1]` raise
`IndexError` with fewer than two teams.  With the finish flag set, return the
second captain if the first has validated, else the first.  With equal team
sizes, compute both captains' rating averages (first then second, so a
`TypeError`/`ZeroDivisionError` of the first is raised first); if both are
strictly positive the captain with the smaller-or-equal average picks.
Otherwise the captain with the smaller-or-equal team size picks. -/
def whose_turn (t : TeamKeshi) : Except PyErr Player :=
  match t.teams with
  | [] => .error .indexError
  | [_] => .error .indexError
  | (captain_1, ps1) :: (captain_2, ps2) :: _ =>
    if t.is_finish then
      .ok (if captain_1 ∈ t.who_validated then captain_2 else captain_1)
    else if ps1.length = ps2.length then
      match avgRate captain_1 with
      | .error e => .error e
      | .ok rate_1 =>
        match avgRate captain_2 with
        | .error e => .error e
        | .ok rate_2 =>
          if 0 < rate_1 ∧ 0 < rate_2 then
            .ok (if rate_1 ≤ rate_2 then captain_1 else captain_2)
          else
            .ok (if ps1.length ≤ ps2.length then captain_1 else captain_2)
    else
      .ok (if ps1.length ≤ ps2.length then captain_1 else captain_2)

/-- The inner loop of `print_teams` adding one player's rating list into the
running `rates` accumulator (`rates[idx] += rate` positionally; entries of
`rates` beyond the rating list's length are untouched). -/
def addInto : List ℚ → List ℚ → List ℚ
  | rates, [] => rates
  | [], _ :: _ => []
  | a :: as, r :: rs => (a + r) :: addInto as rs

/-- The `show_rates` accumulation of `print_teams`: starting from
`rates = [0, 0, 0, 0]` and `nb_totals = 0`, fold over the team's players,
adding the rating lists of players whose `foot_rates` is not `None` and
counting them. -/
def ratesAccum (players : List Player) : List ℚ × Nat :=
  players.foldl
    (fun acc p =>
      match p.foot_rates with
      | none => acc
      | some rs => (addInto acc.1 rs, acc.2 + 1))
    ([0, 0, 0, 0], 0)

/-- The averaged team rates that `print_teams` renders when `show_rates` is
set: each accumulated dimension divided by `nb_totals`, which raises
`ZeroDivisionError` when no player of the team has known rates. -/
def teamAvgRates (players : List Player) : Except PyErr (List ℚ) :=
  let acc := ratesAccum players
  if acc.2 = 0 then .error .zeroDivisionError
  else .ok (acc.1.map (fun r => r / (acc.2 : ℚ)))

end TeamKeshi

/-- Equality of embedded Python results is decidable. -/
instance instDecidableEqExcept {ε α : Type} [DecidableEq ε] [DecidableEq α] :
    DecidableEq (Except ε α) := fun a b =>
  match a, b with
  | .ok x, .ok y =>
    if h : x = y then .isTrue (by rw [h]) else .isFalse (by simp [h])
  | .error e, .error f =>
    if h : e = f then .isTrue (by rw [h]) else .isFalse (by simp [h])
  | .ok _, .error _ => .isFalse (by simp)
  | .error _, .ok _ => .isFalse (by simp)

/-! Concrete players and sessions used to exercise the embedded operations.
Ratings are the 4-value lists `get_rates` produces in `main.py`; `none`
models a player for whom `get_rates` returned `None`. -/

/-- Captain with rating average 4.0. -/
def capA : Player := ⟨1, "Arman", "arman", 0, some [4, 4, 4, 4]⟩

/-- Captain with rating average 2.0. -/
def capB : Player := ⟨2, "Babak", "babak", 1, some [2, 2, 2, 2]⟩

/-- Captain with unknown (absent) ratings. -/
def capN1 : Player := ⟨3, "Nima", "nima", 2, none⟩

/-- Second captain with unknown (absent) ratings. -/
def capN2 : Player := ⟨4, "Navid", "navid", 3, none⟩

/-- Captain with all-zero ratings, average 0. -/
def capZ : Player := ⟨5, "Zohreh", "zohreh", 4, some [0, 0, 0, 0]⟩

/-- Rated player with a distinct value in each dimension. -/
def pR1 : Player := ⟨6, "Reza", "reza", 5, some [4, 3, 2, 1]⟩

/-- Second rated player with a distinct value in each dimension. -/
def pR2 : Player := ⟨7, "Ramin", "ramin", 6, some [2, 1, 0, 5]⟩

/-- A third would-be captain, distinct from every other player. -/
def capC : Player := ⟨8, "Cyrus", "cyrus", 7, none⟩

/-- A player not registered for the next match. -/
def pOut : Player := ⟨9, "Omid", "omid", -1, none⟩

/-- Rateless squad member. -/
def mr1 : Player := ⟨10, "M1", "m1", 8, none⟩

/-- Rateless squad member. -/
def mr2 : Player := ⟨11, "M2", "m2", 9, none⟩

/-- Rateless squad member. -/
def mr3 : Player := ⟨12, "M3", "m3", 10, none⟩

/-- Rateless squad member. -/
def mr4 : Player := ⟨13, "M4", "m4", 11, none⟩

/-- Rateless squad member. -/
def mr5 : Player := ⟨14, "M5", "m5", 12, none⟩

/-- Rateless squad member. -/
def mr6 : Player := ⟨15, "M6", "m6", 13, none⟩

/-- Rateless squad member. -/
def mr7 : Player := ⟨16, "M7", "m7", 14, none⟩

/-- Rateless squad member. -/
def mr8 : Player := ⟨17, "M8", "m8", 15, none⟩

/-- Session right after two rated captains joined (averages 4.0 and 2.0,
both teams at size 1). -/
def tAvg : TeamKeshi :=
  { players := [], teams := [(capA, [capA]), (capB, [capB])], who_validated := [] }

/-- Session right after two captains with unknown ratings joined. -/
def tUnknown : TeamKeshi :=
  { players := [], teams := [(capN1, [capN1]), (capN2, [capN2])], who_validated := [] }

/-- Session whose first captain has an all-zero rating average. -/
def tZeroAvg : TeamKeshi :=
  { players := [], teams := [(capZ, [capZ]), (capB, [capB])], who_validated := [] }

/-- Complete session: two captains, both teams at size 5, nobody validated. -/
def tFin : TeamKeshi :=
  { players := []
    teams := [(capN1, [capN1, mr1, mr2, mr3, mr4]), (capN2, [capN2, mr5, mr6, mr7, mr8])]
    who_validated := [] }

/-- Degenerate session with a single team that reached size 5. -/
def soloSession : TeamKeshi :=
  { players := [], teams := [(capN1, [capN1, mr1, mr2, mr3, mr4])], who_validated := [] }

/-- A sample unsorted roster containing an unregistered player. -/
def rosterEx : List Player := [capB, pOut, capA, pR1]

open TeamKeshi

/-- C9: calling `add_captain` twice with the same player is idempotent: the
second call leaves the whole session state, in particular the `teams`
mapping, exactly as it was after the first call. -/
theorem add_captain_idempotent (t : TeamKeshi) (c : Player) :
    (t.add_captain c).add_captain c = t.add_captain c := by
  by_cases h : (t.teams.any fun kv => kv.1 = c) = true
  · simp [TeamKeshi.add_captain, h]
  · simp [TeamKeshi.add_captain, h, List.any_append]

/-- C10: with fewer than two teams, `whose_turn` raises `IndexError` (the
subscript `list(self.teams.keys())[0]` or `[1]` is out of range) instead of
returning a "no turn" value, so two captains is a precondition of every
`whose_turn`-based operation. -/
theorem whose_turn_fewer_than_two_captains (t : TeamKeshi)
    (h : t.teams.length < 2) : t.whose_turn = .error .indexError := by
  cases ht : t.teams with
  | nil => simp [TeamKeshi.whose_turn, ht]
  | cons kv1 l =>
    cases l with
    | nil => simp [TeamKeshi.whose_turn, ht]
    | cons kv2 l2 =>
      rw [ht] at h
      simp [List.length_cons] at h
      omega

/-- Witness for C10: the fresh session from an empty roster has fewer than
two teams and `whose_turn` on it is an `IndexError`. -/
theorem whose_turn_fewer_than_two_captains_witness :
    (TeamKeshi.init []).teams.length < 2 ∧
    (TeamKeshi.init []).whose_turn = .error .indexError :=
  ⟨by decide, whose_turn_fewer_than_two_captains _ (by decide)⟩

/-- C3 counterexample: a session with a single team of size 5 has fewer than
two teams, yet `is_finish` returns `true` — refuting "false whenever fewer
than two teams exist". -/
theorem is_finish_single_team_cex :
    soloSession.teams.length = 1 ∧ soloSession.is_finish = true := by
  decide

/-- C3 amended: `is_finish` returns `true` iff at least one team exists and
every existing team has size at least 5; the "both teams exist" clause is
not checked, so a single size-5 team already counts as finished. -/
theorem is_finish_true_iff (t : TeamKeshi) :
    t.is_finish = true ↔ t.teams ≠ [] ∧ ∀ kv ∈ t.teams, 5 ≤ kv.2.length := by
  by_cases h : t.teams.length = 0
  · have hnil : t.teams = [] := List.length_eq_zero.mp h
    simp [TeamKeshi.is_finish, hnil]
  · have hne : t.teams ≠ [] := fun hnil => h (by simp [hnil])
    simp [TeamKeshi.is_finish, h, hne, List.all_eq_true]

/-- Witness for C3 (amended): the complete two-team session is finished. -/
theorem is_finish_true_iff_witness : tFin.is_finish = true :=
  (is_finish_true_iff tFin).mpr ⟨by decide, by decide⟩

/-- C4 counterexample: with two captains present, `add_captain` on a third
distinct captain is not rejected — the teams mapping grows to 3 entries. -/
theorem add_captain_third_not_rejected_cex :
    tUnknown.teams.length = 2 ∧ (tUnknown.add_captain capC).teams.length = 3 := by
  decide

/-- C4 amended: with two captains present, adding a third distinct captain
is accepted, appending a third singleton team and leaving the two existing
entries unchanged; no captain cap is enforced by `add_captain`. -/
theorem add_captain_third_appends (t : TeamKeshi) (c : Player)
    (h2 : t.teams.length = 2) (hc : ∀ kv ∈ t.teams, kv.1 ≠ c) :
    (t.add_captain c).teams = t.teams ++ [(c, [c])] ∧
    (t.add_captain c).teams.length = 3 := by
  have hany : (t.teams.any fun kv => kv.1 = c) = false := by
    rw [List.any_eq_false]
    intro kv hkv
    simpa using hc kv hkv
  constructor
  · simp [TeamKeshi.add_captain, hany]
  · simp [TeamKeshi.add_captain, hany, h2]

/-- Witness for C4 (amended): adding `capC` to the two-captain session
appends a third team. -/
theorem add_captain_third_appends_witness :
    (tUnknown.add_captain capC).teams = tUnknown.teams ++ [(capC, [capC])] ∧
    (tUnknown.add_captain capC).teams.length = 3 :=
  add_captain_third_appends tUnknown capC (by decide) (by decide)

/-- C5 counterexample: on the complete session, two `set_validation` calls
by the same captain record that captain twice and `is_both_validated`
becomes `true`, although only one distinct captain validated — refuting
"records that captain once" / "two distinct captains have validated". -/
theorem set_validation_same_captain_double_cex :
    ((tFin.set_validation capN1).set_validation capN1).who_validated
      = [capN1, capN1] ∧
    ((tFin.set_validation capN1).set_validation capN1).is_both_validated = true := by
  decide

/-- C5 amended: `set_validation` appends unconditionally, so a second
validate by the same captain is recorded again (the list gains the captain
twice), and finalization (`is_both_validated`) occurs exactly when
`who_validated` reaches length 2, whether or not its entries are distinct. -/
theorem set_validation_appends_double_counts (t : TeamKeshi) (c : Player) :
    ((t.set_validation c).set_validation c).who_validated
      = t.who_validated ++ [c, c] ∧
    (((t.set_validation c).set_validation c).is_both_validated = true ↔
      t.who_validated = []) := by
  constructor
  · simp [TeamKeshi.set_validation]
  · simp only [TeamKeshi.set_validation, TeamKeshi.is_both_validated,
      List.append_assoc, List.length_append, List.length_cons, List.length_nil,
      decide_eq_true_eq]
    rw [← List.length_eq_zero]
    omega

/-- Witness for C5 (amended): from the freshly complete session, the same
captain validating twice triggers finalization on their own. -/
theorem set_validation_appends_double_counts_witness :
    ((tFin.set_validation capN1).set_validation capN1).is_both_validated = true :=
  (set_validation_appends_double_counts tFin capN1).2.mpr rfl

/-- C1: with two captains of equal team size, `whose_turn` handles a zero
rating average gracefully (the first captain is returned), but with absent
(`None`) ratings the code evaluates `sum(captain_1.foot_rates)` and raises
`TypeError` instead of returning the first captain: the embedded
`whose_turn` on `tUnknown` is a `TypeError`, while on `tZeroAvg` (first
captain average 0) it returns the first captain. -/
theorem whose_turn_unknown_ratings_typeError :
    tUnknown.whose_turn = .error .typeError ∧
    tZeroAvg.whose_turn = .ok capZ := by
  constructor
  · decide
  · norm_num [TeamKeshi.whose_turn, TeamKeshi.is_finish, TeamKeshi.avgRate,
      tZeroAvg, capZ, capB]

/-- C2: with two captains, equal unfinished teams, and both rating averages
strictly positive, `whose_turn` returns the captain with the strictly lower
average. -/
theorem whose_turn_lower_average_picks (t : TeamKeshi) (c1 c2 : Player)
    (ps1 ps2 : List Player) (r1 r2 : ℚ)
    (ht : t.teams = [(c1, ps1), (c2, ps2)])
    (hfin : t.is_finish = false)
    (hlen : ps1.length = ps2.length)
    (h1 : avgRate c1 = .ok r1) (h2 : avgRate c2 = .ok r2)
    (hp1 : 0 < r1) (hp2 : 0 < r2) :
    (r1 < r2 → t.whose_turn = .ok c1) ∧ (r2 < r1 → t.whose_turn = .ok c2) := by
  constructor
  · intro hlt
    simp [TeamKeshi.whose_turn, ht, hfin, hlen, h1, h2, hp1, hp2, le_of_lt hlt]
  · intro hlt
    simp [TeamKeshi.whose_turn, ht, hfin, hlen, h1, h2, hp1, hp2, not_le.mpr hlt]

/-- Witness for C2: captains with averages 4.0 and 2.0, both teams at size
1 — the second (lower-average) captain picks. -/
theorem whose_turn_lower_average_picks_witness : tAvg.whose_turn = .ok capB :=
  (whose_turn_lower_average_picks tAvg capA capB [capA] [capB] 4 2 rfl
    (by decide) rfl
    (by norm_num [TeamKeshi.avgRate, capA])
    (by norm_num [TeamKeshi.avgRate, capB])
    (by norm_num) (by norm_num)).2 (by norm_num)

/-- C6: the team-average computation of `print_teams` (with `show_rates`)
sums only players with known ratings and divides by their count — shown on
a team where the unknown-rated player is excluded from every dimension —
but when no player of the team has known ratings it divides by
`nb_totals = 0` and raises `ZeroDivisionError` instead of an
undefined/zero average. -/
theorem teamAvgRates_no_known_zeroDivision :
    teamAvgRates [capN1] = .error .zeroDivisionError ∧
    teamAvgRates [pR1, capN1, pR2] = .ok [3, 2, 1, 3] := by
  constructor
  · decide
  · norm_num [TeamKeshi.teamAvgRates, TeamKeshi.ratesAccum, TeamKeshi.addInto,
      pR1, pR2, capN1]

/-- C7: when both teams are complete (size 5 each) and not both captains
have validated, `whose_turn` returns a captain who has not yet validated;
with no validation yet it is the first captain, and once the first captain
validated it is the second. -/
theorem whose_turn_validation_unvalidated_captain (t : TeamKeshi)
    (c1 c2 : Player) (ps1 ps2 : List Player)
    (ht : t.teams = [(c1, ps1), (c2, ps2)])
    (h1 : ps1.length = 5) (h2 : ps2.length = 5)
    (hnb : ¬(c1 ∈ t.who_validated ∧ c2 ∈ t.who_validated)) :
    (∃ c, t.whose_turn = .ok c ∧ c ∉ t.who_validated) ∧
    (c1 ∉ t.who_validated → t.whose_turn = .ok c1) ∧
    (c1 ∈ t.who_validated → t.whose_turn = .ok c2) := by
  have hfin : t.is_finish = true := by
    simp [TeamKeshi.is_finish, ht, h1, h2]
  by_cases hc1 : c1 ∈ t.who_validated
  · have hwt : t.whose_turn = .ok c2 := by
      simp [TeamKeshi.whose_turn, ht, hfin, hc1]
    exact ⟨⟨c2, hwt, fun hc2 => hnb ⟨hc1, hc2⟩⟩,
      fun h => absurd hc1 h, fun _ => hwt⟩
  · have hwt : t.whose_turn = .ok c1 := by
      simp [TeamKeshi.whose_turn, ht, hfin, hc1]
    exact ⟨⟨c1, hwt, hc1⟩, fun _ => hwt, fun h => absurd h hc1⟩

/-- Witness for C7: on the complete session with no validations, the first
captain is asked to validate. -/
theorem whose_turn_validation_unvalidated_captain_witness :
    tFin.whose_turn = .ok capN1 :=
  (whose_turn_validation_unvalidated_captain tFin capN1 capN2
    [capN1, mr1, mr2, mr3, mr4] [capN2, mr5, mr6, mr7, mr8]
    rfl (by decide) (by decide) (by decide)).2.1 (by decide)

/-- C8: the candidate pool built by `__init__` contains only players with
`order_id >= 0`, has at most 10 entries, is sorted ascending by `order_id`,
and is exactly the first 10 of an `order_id`-sorted rearrangement of the
registered part of the roster; an empty roster yields an empty pool. -/
theorem init_candidate_pool_spec (roster : List Player) :
    (∀ p ∈ (TeamKeshi.init roster).players, 0 ≤ p.order_id) ∧
    (TeamKeshi.init roster).players.length ≤ 10 ∧
    (TeamKeshi.init roster).players.Pairwise
      (fun a b => a.order_id ≤ b.order_id) ∧
    (∃ sortedReg : List Player,
      sortedReg.Perm (roster.filter fun p => 0 ≤ p.order_id) ∧
      sortedReg.Pairwise (fun a b => a.order_id ≤ b.order_id) ∧
      (TeamKeshi.init roster).players = sortedReg.take 10) ∧
    (TeamKeshi.init []).players = [] := by
  have hpool : (TeamKeshi.init roster).players
      = ((roster.filter fun p => 0 ≤ p.order_id).mergeSort
          fun a b => a.order_id ≤ b.order_id).take 10 := rfl
  have hmsorted : ((roster.filter fun p => 0 ≤ p.order_id).mergeSort
      fun a b => a.order_id ≤ b.order_id).Pairwise
      (fun a b : Player => a.order_id ≤ b.order_id) := by
    have h := @List.sorted_mergeSort Player
      (fun a b => decide (a.order_id ≤ b.order_id))
      (fun a b c hab hbc => by
        simp only [decide_eq_true_eq] at hab hbc ⊢
        omega)
      (fun a b => by
        simp only [Bool.or_eq_true, decide_eq_true_eq]
        omega)
      (roster.filter fun p => 0 ≤ p.order_id)
    exact h.imp (fun hab => by simpa using hab)
  refine ⟨?_, ?_, ?_, ?_, ?_⟩
  · intro p hp
    rw [hpool] at hp
    have hp2 := List.take_subset _ _ hp
    rw [List.mem_mergeSort] at hp2
    simpa using (List.mem_filter.mp hp2).2
  · rw [hpool, List.length_take]
    exact Nat.min_le_left _ _
  · rw [hpool]
    exact List.Pairwise.sublist (List.take_sublist _ _) hmsorted
  · exact ⟨_, List.mergeSort_perm _ _, hmsorted, hpool⟩
  · simp [TeamKeshi.init]

/-- Witness for C8: the pool properties instantiated at a concrete
unsorted roster with an unregistered player. -/
theorem init_candidate_pool_spec_witness :
    (∀ p ∈ (TeamKeshi.init rosterEx).players, 0 ≤ p.order_id) ∧
    (TeamKeshi.init rosterEx).players.length ≤ 10 ∧
    (TeamKeshi.init rosterEx).players.Pairwise
      (fun a b => a.order_id ≤ b.order_id) ∧
    (∃ sortedReg : List Player,
      sortedReg.Perm (rosterEx.filter fun p => 0 ≤ p.order_id) ∧
      sortedReg.Pairwise (fun a b => a.order_id ≤ b.order_id) ∧
      (TeamKeshi.init rosterEx).players = sortedReg.take 10) ∧
    (TeamKeshi.init []).players = [] :=
  init_candidate_pool_spec rosterEx

end Foot4Ever
